import Mathlib

/-!
Verification of the request-handling pipeline of `src/server.py` (a minimal
concurrent static-file HTTP server, class `HTTPServer`).

The embedding is shallow: the pure request-processing logic is translated into
executable Lean functions; the filesystem and the MIME table are abstracted as
a record of total functions (`FS`); socket effects of `handle_client` are
modelled as an explicit event trace.  Paths are POSIX strings; the helpers
below model the Python standard-library calls the server makes
(`str.split`, `str.strip`, `urllib.parse.unquote`, `os.path.join`,
`os.path.normpath`, `os.path.abspath`, `str.startswith`).
-/

/-- Python whitespace characters, as used by `str.split()` / `str.strip()`. -/
def pyIsSpace (c : Char) : Bool :=
  c == ' ' || c == '\t' || c == '\n' || c == '\r' || c == '\x0b' || c == '\x0c'

/-- Split a character list at every separator char satisfying `p`, keeping
empty chunks — the semantics of Python `str.split(sep)` with an explicit
separator. -/
def splitOnPred (p : Char → Bool) : List Char → List (List Char)
  | [] => [[]]
  | x :: xs =>
    if p x then [] :: splitOnPred p xs
    else
      match splitOnPred p xs with
      | [] => [[x]]
      | h :: t => (x :: h) :: t

/-- Python `str.split()` with no argument: split on runs of whitespace,
discarding empty chunks. -/
def pySplitWs (s : String) : List String :=
  ((splitOnPred pyIsSpace s.data).filter (· ≠ [])).map String.mk

/-- Python `str.split('\n')`: line split keeping empty chunks. -/
def splitLines (s : String) : List String :=
  (splitOnPred (· == '\n') s.data).map String.mk

/-- The `request_data.split('\n')[0]` access: the first element of the line
split (the split of any string is nonempty, so index 0 always exists). -/
def firstLine (s : String) : String :=
  (splitLines s).headD ""

/-- Python `str.strip()`: drop leading and trailing whitespace. -/
def pyStrip (s : String) : String :=
  String.mk (((s.data.dropWhile pyIsSpace).reverse.dropWhile pyIsSpace).reverse)

/-- Character-list prefix test: `startsWithChars pre l` holds when `l` begins
with `pre`. -/
def startsWithChars : List Char → List Char → Bool
  | [], _ => true
  | _ :: _, [] => false
  | a :: as, b :: bs => a == b && startsWithChars as bs

/-- Python `s.startswith(pre)` on strings. -/
def strStartsWith (s pre : String) : Bool :=
  startsWithChars pre.data s.data

/-- Substring test on character lists. -/
def hasSubstrChars (needle : List Char) : List Char → Bool
  | [] => needle.isEmpty
  | l@(_ :: rest) => startsWithChars needle l || hasSubstrChars needle rest

/-- Whether `needle` occurs as a contiguous substring of `hay`. -/
def containsSub (needle hay : String) : Bool :=
  hasSubstrChars needle.data hay.data

/-- Value of a hexadecimal digit character, if it is one. -/
def hexVal (c : Char) : Option Nat :=
  if '0' ≤ c ∧ c ≤ '9' then some (c.toNat - '0'.toNat)
  else if 'a' ≤ c ∧ c ≤ 'f' then some (c.toNat - 'a'.toNat + 10)
  else if 'A' ≤ c ∧ c ≤ 'F' then some (c.toNat - 'A'.toNat + 10)
  else none

/-- Percent-decoding scanner for `urllib.parse.unquote`: a valid `%XY` escape
becomes the character with code `16*X + Y`; an invalid escape keeps the `%`
literally and rescanning continues at the next character.  The fuel argument
starts at the list length and each step consumes at least one character, so it
never runs out; it only makes the recursion structural.  (Multi-byte UTF-8
escape sequences decode to the corresponding byte values individually; the
claims only involve ASCII escapes, where this agrees with Python.) -/
def unquoteAux : Nat → List Char → List Char
  | 0, _ => []
  | _ + 1, [] => []
  | fuel + 1, c :: rest =>
    if c = '%' then
      match rest with
      | a :: b :: rest2 =>
        match hexVal a, hexVal b with
        | some hi, some lo => Char.ofNat (16 * hi + lo) :: unquoteAux fuel rest2
        | _, _ => '%' :: unquoteAux fuel rest
      | _ => '%' :: unquoteAux fuel rest
    else c :: unquoteAux fuel rest

/-- Python `urllib.parse.unquote` on the path component. -/
def unquote (s : String) : String :=
  String.mk (unquoteAux s.data.length s.data)

/-- The `.path` component of `urllib.parse.urlparse(url_path)` for the
absolute-path request targets the server receives: everything before the
first `?` (query) or `#` (fragment). -/
def urlPath (url : String) : String :=
  String.mk (url.data.takeWhile (fun c => c != '?' && c != '#'))

/-- Python `os.path.join(a, b)` for POSIX paths: an absolute `b` replaces
`a`; otherwise the parts are joined with a single `/` unless `a` is empty or
already ends with one. -/
def posixJoin (a b : String) : String :=
  if strStartsWith b "/" then b
  else if a = "" ∨ a.data.getLast? = some '/' then a ++ b
  else a ++ "/" ++ b

/-- Loop of `posixpath.normpath`: process components left to right, dropping
empty and `.` components, letting `..` pop the previous component (except at
the root of an absolute path, where it is dropped, or after an unpopped `..`
of a relative path, where it accumulates).  `acc` holds the emitted
components in reverse (head of `acc` = Python `new_comps[-1]`). -/
def normLoop (slashes : Nat) : List (List Char) → List (List Char) → List (List Char)
  | acc, [] => acc
  | acc, comp :: rest =>
    if comp = [] ∨ comp = ['.'] then normLoop slashes acc rest
    else if comp ≠ ['.', '.'] ∨ (slashes = 0 ∧ acc = []) ∨
        (acc ≠ [] ∧ acc.headD [] = ['.', '.']) then
      normLoop slashes (comp :: acc) rest
    else if acc ≠ [] then normLoop slashes acc.tail rest
    else normLoop slashes acc rest

/-- Join path components with `/` separators (Python `'/'.join`). -/
def joinSlash : List (List Char) → List Char
  | [] => []
  | [x] => x
  | x :: xs => x ++ '/' :: joinSlash xs

/-- Python `posixpath.normpath`: lexical path normalization, collapsing `.`
and `..` segments; one leading slash is kept (two if the path starts with
exactly two). -/
def normpath (s : String) : String :=
  if s = "" then "."
  else
    let cs := s.data
    let slashes : Nat :=
      if startsWithChars ['/', '/'] cs ∧ ¬ startsWithChars ['/', '/', '/'] cs then 2
      else if startsWithChars ['/'] cs then 1
      else 0
    let comps := (normLoop slashes [] (splitOnPred (· == '/') cs)).reverse
    let res := List.replicate slashes '/' ++ joinSlash comps
    if res = [] then "." else String.mk res

/-- Server state relevant to path handling: `www_dir` is `self.www_dir` (made
absolute with `os.path.abspath` at construction), and `cwd` is the process
working directory `os.path.abspath` would resolve relative paths against. -/
structure ServerCfg where
  cwd : String
  www_dir : String

/-- Python `os.path.abspath`: join with the working directory when relative,
then normalize lexically. -/
def abspath (cfg : ServerCfg) (p : String) : String :=
  if strStartsWith p "/" then normpath p else normpath (posixJoin cfg.cwd p)

/-- The `_is_safe_path` check: the canonicalized requested path must start
(as a string) with `self.www_dir`. -/
def is_safe_path (cfg : ServerCfg) (path : String) : Bool :=
  strStartsWith (abspath cfg path) cfg.www_dir

/-- The candidate filesystem path `_resolve_file_path` builds before its
safety check: parse out the URL path, percent-decode it, rewrite `/` to
`/index.html`, strip one leading slash, and join with the document root. -/
def candidate_path (cfg : ServerCfg) (url_path : String) : String :=
  let path := unquote (urlPath url_path)
  let path := if path = "/" then "/index.html" else path
  let path := if strStartsWith path "/" then String.mk (path.data.drop 1) else path
  posixJoin cfg.www_dir path

/-- `HTTPServer._resolve_file_path`: the candidate path when it passes the
directory-traversal safety check, `none` otherwise. -/
def resolve_file_path (cfg : ServerCfg) (url_path : String) : Option String :=
  let file_path := candidate_path cfg url_path
  if is_safe_path cfg file_path then some file_path else none

/-- Abstraction of the filesystem and MIME table the server consults:
`isDir`/`isFile` model `os.path.isdir`/`os.path.isfile`, `content` the binary
read `open(p,'rb').read()` as a byte list (reads are modelled as always
succeeding, so the `IOError → 500` branch of `serve_file` is unreachable in
the model), `readText` the text read used for the custom 404 page (`none`
models an `IOError`), and `mime` the result of `mimetypes.guess_type`. -/
structure FS where
  isDir : String → Bool
  isFile : String → Bool
  content : String → List Nat
  readText : String → Option String
  mime : String → Option String

/-- Python `os.path.exists` over the abstract filesystem. -/
def fsExists (fs : FS) (p : String) : Bool :=
  fs.isFile p || fs.isDir p

/-- UTF-8 encoding of a single code point as byte values. -/
def utf8Encode (n : Nat) : List Nat :=
  if n < 128 then [n]
  else if n < 2048 then [192 + n / 64, 128 + n % 64]
  else if n < 65536 then [224 + n / 4096, 128 + n / 64 % 64, 128 + n % 64]
  else [240 + n / 262144, 128 + n / 4096 % 64, 128 + n / 64 % 64, 128 + n % 64]

/-- Python `str.encode('utf-8')` as a byte list. -/
def strBytes (s : String) : List Nat :=
  s.data.foldr (fun c acc => utf8Encode c.toNat ++ acc) []

/-- An HTTP response as the server assembles it: status line fields, the
Content-Type value, and the body bytes.  `Content-Length` is always computed
by the code as the length of the body (`len(content)`), so it is derived, not
stored. -/
structure Response where
  status : Nat
  statusText : String
  contentType : String
  body : List Nat
deriving DecidableEq

/-- `HTTPServer._build_response_headers`: the literal five-element header
list (status line, Content-Type, Content-Length, Connection, and a bare CRLF
that yields the blank-line terminator once joined). -/
def build_response_headers (status_code : Nat) (status_text content_type : String)
    (content_length : Nat) : List String :=
  ["HTTP/1.1 " ++ toString status_code ++ " " ++ status_text,
   "Content-Type: " ++ content_type,
   "Content-Length: " ++ toString content_length,
   "Connection: close",
   "\r\n"]

/-- Python `"\r\n".join(headers)`, as performed by `_send_response`. -/
def join_crlf : List String → String
  | [] => ""
  | [x] => x
  | x :: xs => x ++ "\r\n" ++ join_crlf xs

/-- The header lines of a response as `serve_file`/`send_error` build them. -/
def response_headers (r : Response) : List String :=
  build_response_headers r.status r.statusText r.contentType r.body.length

/-- The header byte block `_send_response` sends: the CRLF-join of the header
lines. -/
def header_data (r : Response) : String :=
  join_crlf (response_headers r)

/-- `HTTPServer._get_mime_type`: the MIME lookup, defaulting to
`application/octet-stream`. -/
def get_mime_type (fs : FS) (file_path : String) : String :=
  (fs.mime file_path).getD "application/octet-stream"

/-- `HTTPServer._get_default_404_page`: the built-in 404 page literal. -/
def get_default_404_page : String :=
  "\n        <!DOCTYPE html>\n        <html>\n        <head><title>404 Not Found</title></head>\n        <body style=\"font-family: Arial; text-align: center; margin-top: 100px;\">\n            <h1>404 - Page Not Found</h1>\n            <a href=\"/\">Torna alla homepage</a>\n        </body>\n        </html>\n        "

/-- `HTTPServer._get_404_page`: the custom `<www_dir>/404.html` when readable,
the default page otherwise. -/
def get_404_page (cfg : ServerCfg) (fs : FS) : String :=
  match fs.readText (posixJoin cfg.www_dir "404.html") with
  | some s => s
  | none => get_default_404_page

/-- `HTTPServer._get_error_content`: the `error_pages` dictionary lookup with
its `<h1><code> Error</h1>` default. -/
def get_error_content (cfg : ServerCfg) (fs : FS) (status_code : Nat) : String :=
  if status_code = 404 then get_404_page cfg fs
  else if status_code = 403 then "<h1>403 Forbidden</h1><p>Access denied.</p>"
  else if status_code = 405 then "<h1>405 Method Not Allowed</h1><p>Method not supported.</p>"
  else if status_code = 500 then "<h1>500 Internal Server Error</h1><p>Internal server error.</p>"
  else if status_code = 400 then "<h1>400 Bad Request</h1><p>Malformed request.</p>"
  else "<h1>" ++ toString status_code ++ " Error</h1>"

/-- `HTTPServer.send_error`: an error response with the looked-up HTML body
(UTF-8 encoded) and the fixed error content type. -/
def send_error (cfg : ServerCfg) (fs : FS) (status_code : Nat) (status_text : String) :
    Response :=
  { status := status_code
    statusText := status_text
    contentType := "text/html; charset=utf-8"
    body := strBytes (get_error_content cfg fs status_code) }

/-- `HTTPServer.serve_file`: a 200 response carrying the file bytes and the
looked-up MIME type. -/
def serve_file (fs : FS) (file_path : String) : Response :=
  { status := 200
    statusText := "OK"
    contentType := get_mime_type fs file_path
    body := fs.content file_path }

/-- `HTTPServer.handle_get_request`: resolve the path (rejecting traversal
with 403), substitute `index.html` for directories, 404 when the final path
is not an existing regular file, otherwise serve it. -/
def handle_get_request (cfg : ServerCfg) (fs : FS) (path : String) : Response :=
  match resolve_file_path cfg path with
  | none => send_error cfg fs 403 "Forbidden"
  | some fp =>
    let file_path := if fs.isDir fp then posixJoin fp "index.html" else fp
    if !fsExists fs file_path || !fs.isFile file_path then
      send_error cfg fs 404 "File Not Found"
    else serve_file fs file_path

/-- `HTTPServer._process_request`: take the first line of the received data,
reject an empty line or a line with fewer than 2 whitespace tokens with 400,
reject a non-GET method with 405, and otherwise handle the GET using token 1
as the path (any further tokens, the HTTP version included, are ignored). -/
def process_request (cfg : ServerCfg) (fs : FS) (request_data : String) : Response :=
  let request_line := pyStrip (firstLine request_data)
  if request_line = "" then send_error cfg fs 400 "Bad Request"
  else
    let parts := pySplitWs request_line
    if parts.length < 2 then send_error cfg fs 400 "Bad Request"
    else
      let method := parts.getD 0 ""
      let path := parts.getD 1 ""
      if method ≠ "GET" then send_error cfg fs 405 "Method Not Allowed"
      else handle_get_request cfg fs path

/-- Observable socket-relevant events of `handle_client`: a successful
receive, the request log line, a response write attempt (by status), and the
socket close performed by `_close_client_socket`. -/
inductive ClientEvent
  | recvEvt
  | logEvt
  | respond (status : Nat)
  | closeEvt
deriving DecidableEq

/-- The ways one invocation of `handle_client` can unfold: the receive (or
the UTF-8 decode) raises; the receive returns empty data; processing runs to
completion on `data`; or processing raises partway (any exception inside the
`try` block). -/
inductive ClientOutcome
  | recvRaises
  | emptyRequest
  | normal (data : String)
  | handlerRaises (data : String)

/-- `HTTPServer.handle_client` as an event trace: the `try` body, the
`except` branch attempting a 500, and the `finally` close that runs on every
path. -/
def handle_client (cfg : ServerCfg) (fs : FS) : ClientOutcome → List ClientEvent
  | .recvRaises => [.respond 500, .closeEvt]
  | .emptyRequest => [.recvEvt, .closeEvt]
  | .normal data =>
    [.recvEvt, .logEvt, .respond (process_request cfg fs data).status, .closeEvt]
  | .handlerRaises _ => [.recvEvt, .logEvt, .respond 500, .closeEvt]

/-- Number of socket-close events in a trace. -/
def countClose : List ClientEvent → Nat
  | [] => 0
  | .closeEvt :: rest => countClose rest + 1
  | _ :: rest => countClose rest

/-- Component-wise containment under the document root, formalizing the
spec's notion of a normalized path lying inside the document root (the path
is the root itself or sits strictly below it across a `/` boundary); its
negation is the spec's "lies outside the document root".  This follows the
spec's words, for comparison with the code's string-prefix check. -/
def outside_doc_root (root p : String) : Bool :=
  !(p == root || strStartsWith p (root ++ "/"))

/-- Whether some header line starts with the given name (e.g. `Date:`). -/
def hasHeaderNamed (name : String) (headers : List String) : Bool :=
  headers.any (fun h => startsWithChars name.data h.data)

/-- A concrete server configuration: document root `/srv/www`, process
working directory `/`. -/
def wwwCfg : ServerCfg := ⟨"/", "/srv/www"⟩

/-- An empty filesystem: no files, no directories, no custom 404 page. -/
def fsEmpty : FS :=
  ⟨fun _ => false, fun _ => false, fun _ => [], fun _ => none, fun _ => none⟩

/-- A filesystem holding only the directory `/srv/www/dir`, with no
`index.html` inside it. -/
def fsDirNoIdx : FS :=
  ⟨fun p => p == "/srv/www/dir", fun _ => false, fun _ => [],
   fun _ => none, fun _ => none⟩

/-- A filesystem holding the directory `/srv/www/dir` containing an
`index.html` with body byte `97`. -/
def fsDirIdx : FS :=
  ⟨fun p => p == "/srv/www/dir",
   fun p => p == "/srv/www/dir/index.html",
   fun p => if p == "/srv/www/dir/index.html" then [97] else [],
   fun _ => none, fun _ => none⟩

/-- A filesystem holding only the regular file `/srv/www/script.php`. -/
def fsPhp : FS :=
  ⟨fun _ => false,
   fun p => p == "/srv/www/script.php",
   fun p => if p == "/srv/www/script.php" then [60, 63, 112, 104, 112] else [],
   fun _ => none, fun _ => none⟩

/-- A filesystem holding only the regular file `/srv/www/a b.txt` (a name
that needs URL encoding) with body bytes `104, 105`. -/
def fsSpace : FS :=
  ⟨fun _ => false,
   fun p => p == "/srv/www/a b.txt",
   fun p => if p == "/srv/www/a b.txt" then [104, 105] else [],
   fun _ => none,
   fun p => if p == "/srv/www/a b.txt" then some "text/plain" else none⟩

/-- A filesystem holding only the regular file `/srv/www/index.html` with
body bytes `72, 105`. -/
def fsIdx : FS :=
  ⟨fun _ => false,
   fun p => p == "/srv/www/index.html",
   fun p => if p == "/srv/www/index.html" then [72, 105] else [],
   fun _ => none, fun _ => none⟩

/-- A filesystem whose custom `/srv/www/404.html` is readable but empty. -/
def fs404Empty : FS :=
  ⟨fun _ => false, fun _ => false, fun _ => [],
   fun p => if p == "/srv/www/404.html" then some "" else none,
   fun _ => none⟩

example : resolve_file_path wwwCfg "/%2e%2e/secret" = none := by decide

example : resolve_file_path wwwCfg "/a.txt" = some "/srv/www/a.txt" := by decide

example : resolve_file_path wwwCfg "/../www-evil/x" =
    some "/srv/www/../www-evil/x" := by decide

example : normpath "/srv/www/../www-evil/x" = "/srv/www-evil/x" := by decide

example : resolve_file_path wwwCfg "/" = some "/srv/www/index.html" := by decide

example : (handle_get_request wwwCfg fsDirNoIdx "/dir").status = 404 := by decide

example : handle_get_request wwwCfg fsDirIdx "/dir" =
    serve_file fsDirIdx "/srv/www/dir/index.html" := by decide

example :
    (process_request wwwCfg fsPhp "GET /script.php HTTP/1.1\r\nHost: x\r\n\r\n").status
      = 200 := by decide

example : (process_request wwwCfg fsEmpty "GET /x\r\n").status = 404 := by decide

example : pySplitWs (pyStrip (firstLine "GET /x\r\n")) = ["GET", "/x"] := by decide

example : (process_request wwwCfg fsEmpty "GET /x HTTP/9.9\r\n").status = 404 := by
  decide

example : (process_request wwwCfg fsEmpty "GET\r\n").status = 400 := by decide

example : hasHeaderNamed "Date:"
    (response_headers (process_request wwwCfg fsEmpty "GET / HTTP/1.1\r\n")) = false := by
  decide

example : get_error_content wwwCfg fs404Empty 404 = "" := by decide

example : handle_get_request wwwCfg fsSpace "/a%20b.txt" =
    serve_file fsSpace "/srv/www/a b.txt" := by decide

example : handle_get_request wwwCfg fsIdx "/" = handle_get_request wwwCfg fsIdx "/index.html" := by
  decide

example : (handle_get_request wwwCfg fsIdx "/").body = [72, 105] := by decide

/-- Every GET is answered with 403, 404 or 200: `handle_get_request` either
rejects the resolution, misses the file, or serves it. -/
theorem handle_get_status_cases (cfg : ServerCfg) (fs : FS) (path : String) :
    (handle_get_request cfg fs path).status = 403 ∨
    (handle_get_request cfg fs path).status = 404 ∨
    (handle_get_request cfg fs path).status = 200 := by
  unfold handle_get_request
  cases hres : resolve_file_path cfg path with
  | none => exact Or.inl rfl
  | some fp =>
    dsimp only
    split <;> split <;>
      first
      | exact Or.inr (Or.inl rfl)
      | exact Or.inr (Or.inr rfl)

/-- C1: the claim is false as stated.  The decoded target `/../www-evil/x`
contains `../` and its lexical normalization `/srv/www-evil/x` lies outside
the document root `/srv/www`, yet `_resolve_file_path` accepts it (the naive
`startswith` check passes on the sibling directory name) and the handler does
not answer 403. -/
theorem C1_counterexample :
    containsSub "../" (unquote (urlPath "/../www-evil/x")) = true ∧
    outside_doc_root wwwCfg.www_dir
      (abspath wwwCfg (candidate_path wwwCfg "/../www-evil/x")) = true ∧
    resolve_file_path wwwCfg "/../www-evil/x" ≠ none ∧
    (handle_get_request wwwCfg fsEmpty "/../www-evil/x").status ≠ 403 := by
  decide

/-- C1 (amended): for every raw target whose percent-decoded path contains
`../` and whose lexically normalized candidate fails the string-prefix check
against the document root, `_resolve_file_path` returns `none` and the
handler responds 403 Forbidden; percent-encoded forms such as `%2e%2e%2f` are
decoded before the check.  (A `../` path normalizing outside the root but
into a sibling whose name extends the root string, e.g. `www-evil` beside
`www`, passes the prefix check and is not rejected.) -/
theorem C1_traversal_rejected (cfg : ServerCfg) (fs : FS) (url : String)
    (_hdot : containsSub "../" (unquote (urlPath url)) = true)
    (hrejected : is_safe_path cfg (candidate_path cfg url) = false) :
    resolve_file_path cfg url = none ∧
    handle_get_request cfg fs url = send_error cfg fs 403 "Forbidden" := by
  have hres : resolve_file_path cfg url = none := by
    unfold resolve_file_path
    simp [hrejected]
  refine ⟨hres, ?_⟩
  unfold handle_get_request
  rw [hres]

/-- C1 witness: the percent-encoded traversal `/%2e%2e/secret` decodes to
`/../secret`, normalizes outside `/srv/www`, and is rejected with 403. -/
theorem C1_traversal_rejected_witness :
    resolve_file_path wwwCfg "/%2e%2e/secret" = none ∧
    handle_get_request wwwCfg fsEmpty "/%2e%2e/secret" =
      send_error wwwCfg fsEmpty 403 "Forbidden" :=
  C1_traversal_rejected wwwCfg fsEmpty "/%2e%2e/secret" (by decide) (by decide)

set_option maxRecDepth 16384 in
/-- C2: the claim is false as stated.  For the directory `/srv/www/dir` with
no `index.html` inside, the handler answers 404 Not Found, not the claimed
403 Forbidden. -/
theorem C2_counterexample :
    resolve_file_path wwwCfg "/dir" = some "/srv/www/dir" ∧
    fsDirNoIdx.isDir "/srv/www/dir" = true ∧
    fsDirNoIdx.isFile "/srv/www/dir/index.html" = false ∧
    (handle_get_request wwwCfg fsDirNoIdx "/dir").status ≠ 403 ∧
    handle_get_request wwwCfg fsDirNoIdx "/dir" =
      send_error wwwCfg fsDirNoIdx 404 "File Not Found" := by
  decide

/-- C2 (amended): for every GET whose resolved candidate path is a directory,
if that directory contains no `index.html` the request is rejected with 404
Not Found (no listing is generated); if `index.html` is present it is served
instead. -/
theorem C2_directory_index (cfg : ServerCfg) (fs : FS) (url fp : String)
    (hres : resolve_file_path cfg url = some fp)
    (hdir : fs.isDir fp = true) :
    handle_get_request cfg fs url =
      if fs.isFile (posixJoin fp "index.html") then
        serve_file fs (posixJoin fp "index.html")
      else send_error cfg fs 404 "File Not Found" := by
  unfold handle_get_request
  rw [hres]
  cases hf : fs.isFile (posixJoin fp "index.html") <;>
    simp [hdir, fsExists, hf]

/-- C2 witness: the directory `/srv/www/dir` of `fsDirIdx` carries an
`index.html`, so `GET /dir` serves it. -/
theorem C2_directory_index_witness :
    handle_get_request wwwCfg fsDirIdx "/dir" =
      if fsDirIdx.isFile (posixJoin "/srv/www/dir" "index.html") then
        serve_file fsDirIdx (posixJoin "/srv/www/dir" "index.html")
      else send_error wwwCfg fsDirIdx 404 "File Not Found" :=
  C2_directory_index wwwCfg fsDirIdx "/dir" "/srv/www/dir" (by decide) (by decide)

/-- C3: the claim is false as stated.  There is no extension denylist in the
code: a GET for the existing file `/srv/www/script.php` is served with 200,
not answered with 501 Not Implemented. -/
theorem C3_counterexample :
    fsPhp.isFile "/srv/www/script.php" = true ∧
    (process_request wwwCfg fsPhp
      "GET /script.php HTTP/1.1\r\nHost: x\r\n\r\n").status = 200 ∧
    (process_request wwwCfg fsPhp
      "GET /script.php HTTP/1.1\r\nHost: x\r\n\r\n").status ≠ 501 := by
  decide

/-- A GET handler response never carries the statuses the parsing layer owns
(400, 405) nor the unimplemented 501. -/
theorem handle_get_status_ne (cfg : ServerCfg) (fs : FS) (path : String) :
    (handle_get_request cfg fs path).status ≠ 400 ∧
    (handle_get_request cfg fs path).status ≠ 405 ∧
    (handle_get_request cfg fs path).status ≠ 501 := by
  rcases handle_get_status_cases cfg fs path with h | h | h <;> simp [h]

/-- C3 (amended): the server has no extension denylist and never responds 501
Not Implemented; files with extensions such as `.php` are served (or 404
when absent) like any other file. -/
theorem C3_no_501 (cfg : ServerCfg) (fs : FS) (request_data : String) :
    (process_request cfg fs request_data).status ≠ 501 := by
  unfold process_request
  dsimp only
  split
  · simp [send_error]
  · split
    · simp [send_error]
    · split
      · simp [send_error]
      · exact (handle_get_status_ne cfg fs _).2.2

/-- C4: the claim is false as stated.  The request line `GET /x` splits into
2 tokens (not 3), yet the server does not answer 400: it processes the GET
and (with no such file) answers 404. -/
theorem C4_counterexample :
    pySplitWs (pyStrip (firstLine "GET /x\r\n")) = ["GET", "/x"] ∧
    (process_request wwwCfg fsEmpty "GET /x\r\n").status ≠ 400 ∧
    (process_request wwwCfg fsEmpty "GET /x\r\n").status = 404 := by
  decide

/-- C4 (amended): a request line with fewer than 2 whitespace tokens (empty
or 1-token) yields 400 Bad Request; a line with 2 or more tokens is never
rejected as malformed — it is processed using the first two tokens, so a
2-token or 4-or-more-token line does not yield 400. -/
theorem C4_token_count (cfg : ServerCfg) (fs : FS) (request_data : String) :
    ((pySplitWs (pyStrip (firstLine request_data))).length < 2 →
      process_request cfg fs request_data = send_error cfg fs 400 "Bad Request") ∧
    (2 ≤ (pySplitWs (pyStrip (firstLine request_data))).length →
      (process_request cfg fs request_data).status ≠ 400) := by
  constructor
  · intro h
    unfold process_request
    dsimp only
    split <;> rfl
  · intro h
    unfold process_request
    dsimp only
    split
    · next h1 =>
      rw [h1] at h
      exact absurd h (by decide)
    · split
      · next h2 => omega
      · split
        · simp [send_error]
        · exact (handle_get_status_ne cfg fs _).1

/-- C4 witness: the 1-token line `GET` is rejected with 400, while the
4-token line `GET /x HTTP/1.1 extra` is not. -/
theorem C4_token_count_witness :
    process_request wwwCfg fsEmpty "GET\r\n" =
      send_error wwwCfg fsEmpty 400 "Bad Request" ∧
    (process_request wwwCfg fsEmpty "GET /x HTTP/1.1 extra\r\n").status ≠ 400 :=
  ⟨(C4_token_count wwwCfg fsEmpty "GET\r\n").1 (by decide),
   (C4_token_count wwwCfg fsEmpty "GET /x HTTP/1.1 extra\r\n").2 (by decide)⟩

/-- C5: the claim is false as stated.  The request line `GET /x HTTP/9.9`
has 3 tokens and a version not matching `HTTP/1.<digit>`, yet the server does
not answer 400: the version token is never inspected. -/
theorem C5_counterexample :
    pySplitWs (pyStrip (firstLine "GET /x HTTP/9.9\r\n")) =
      ["GET", "/x", "HTTP/9.9"] ∧
    (process_request wwwCfg fsEmpty "GET /x HTTP/9.9\r\n").status ≠ 400 ∧
    (process_request wwwCfg fsEmpty "GET /x HTTP/9.9\r\n").status = 404 := by
  decide

/-- C5 (amended): the version token is ignored entirely.  For every request
line tokenizing as `m :: p :: rest`, the response depends only on `m` and
`p` — a non-GET method gives 405 and a GET is handled — so no request is ever
rejected for its version token. -/
theorem C5_version_ignored (cfg : ServerCfg) (fs : FS) (request_data m p : String)
    (rest : List String)
    (h : pySplitWs (pyStrip (firstLine request_data)) = m :: p :: rest) :
    process_request cfg fs request_data =
      if m = "GET" then handle_get_request cfg fs p
      else send_error cfg fs 405 "Method Not Allowed" := by
  unfold process_request
  dsimp only
  split
  · next h1 =>
    rw [h1] at h
    rw [show pySplitWs "" = [] from rfl] at h
    exact List.noConfusion h
  · rw [h]
    split
    · next h2 => simp only [List.length_cons] at h2; omega
    · simp only [List.getD_cons_zero, List.getD_cons_succ]
      by_cases hm : m = "GET" <;> simp [hm]

/-- C5 witness: `GET /nope HTTP/9.9` is processed exactly as a GET of
`/nope`, its bogus version notwithstanding. -/
theorem C5_version_ignored_witness :
    process_request wwwCfg fsEmpty "GET /nope HTTP/9.9\r\n" =
      if "GET" = "GET" then handle_get_request wwwCfg fsEmpty "/nope"
      else send_error wwwCfg fsEmpty 405 "Method Not Allowed" :=
  C5_version_ignored wwwCfg fsEmpty "GET /nope HTTP/9.9\r\n" "GET" "/nope"
    ["HTTP/9.9"] (by decide)

set_option maxRecDepth 16384 in
/-- C6: the claim is false as stated.  The header block of an actual server
response (the 404 for `GET / HTTP/1.1` on an empty root) contains a status
line but no `Date` header and no `Server` header. -/
theorem C6_counterexample :
    hasHeaderNamed "HTTP/1.1"
      (response_headers (process_request wwwCfg fsEmpty "GET / HTTP/1.1\r\n")) = true ∧
    hasHeaderNamed "Date:"
      (response_headers (process_request wwwCfg fsEmpty "GET / HTTP/1.1\r\n")) = false ∧
    hasHeaderNamed "Server:"
      (response_headers (process_request wwwCfg fsEmpty "GET / HTTP/1.1\r\n")) = false := by
  decide

/-- C6 (amended): every response's header block consists of, in this exact
order and with CRLF line endings, the status line `HTTP/1.1 <code> <reason>`,
Content-Type, Content-Length, `Connection: close`, and a blank-line
terminator — and of nothing else: no Date header and no Server header appear
in the list. -/
theorem C6_header_block (r : Response) :
    response_headers r =
      ["HTTP/1.1 " ++ toString r.status ++ " " ++ r.statusText,
       "Content-Type: " ++ r.contentType,
       "Content-Length: " ++ toString r.body.length,
       "Connection: close",
       "\r\n"] ∧
    header_data r =
      ("HTTP/1.1 " ++ toString r.status ++ " " ++ r.statusText ++ "\r\n") ++
        (("Content-Type: " ++ r.contentType ++ "\r\n") ++
          (("Content-Length: " ++ toString r.body.length ++ "\r\n") ++
            (("Connection: close" ++ "\r\n") ++ "\r\n"))) :=
  ⟨rfl, rfl⟩

/-- C7: for every existing regular file whose URL resolves through the
sandbox check, the GET handler serves it with status 200, a Content-Length
header equal to the file's byte size, and a body byte-identical to the
file's content. -/
theorem C7_serves_file (cfg : ServerCfg) (fs : FS) (url fp : String)
    (hres : resolve_file_path cfg url = some fp)
    (hnd : fs.isDir fp = false)
    (hf : fs.isFile fp = true) :
    handle_get_request cfg fs url = serve_file fs fp ∧
    (handle_get_request cfg fs url).status = 200 ∧
    (handle_get_request cfg fs url).body = fs.content fp ∧
    response_headers (handle_get_request cfg fs url) =
      build_response_headers 200 "OK" (get_mime_type fs fp)
        (fs.content fp).length := by
  have hmain : handle_get_request cfg fs url = serve_file fs fp := by
    unfold handle_get_request
    rw [hres]
    simp [hnd, hf, fsExists]
  exact ⟨hmain, by rw [hmain]; rfl, by rw [hmain]; rfl, by rw [hmain]; rfl⟩

/-- C7 witness: the URL-encoded path `/a%20b.txt` of the existing file
`/srv/www/a b.txt` is served byte-identically with status 200. -/
theorem C7_serves_file_witness :
    handle_get_request wwwCfg fsSpace "/a%20b.txt" =
      serve_file fsSpace "/srv/www/a b.txt" ∧
    (handle_get_request wwwCfg fsSpace "/a%20b.txt").status = 200 ∧
    (handle_get_request wwwCfg fsSpace "/a%20b.txt").body =
      fsSpace.content "/srv/www/a b.txt" ∧
    response_headers (handle_get_request wwwCfg fsSpace "/a%20b.txt") =
      build_response_headers 200 "OK" (get_mime_type fsSpace "/srv/www/a b.txt")
        (fsSpace.content "/srv/www/a b.txt").length :=
  C7_serves_file wwwCfg fsSpace "/a%20b.txt" "/srv/www/a b.txt"
    (by decide) (by decide) (by decide)

/-- C8: for every accepted connection and every way the handling can unfold
(successful serve, empty read, parse or resolution failure answered through
`process_request`, I/O error or unexpected exception caught by the `except`
branch), the trace of `handle_client` contains exactly one socket close, and
it is the final event. -/
theorem C8_close_once (cfg : ServerCfg) (fs : FS) (outcome : ClientOutcome) :
    countClose (handle_client cfg fs outcome) = 1 ∧
    (handle_client cfg fs outcome).getLast? = some ClientEvent.closeEvt := by
  cases outcome <;> exact ⟨rfl, rfl⟩

/-- C9: if `documentRoot/index.html` exists as a regular file (and the joined
path passes the sandbox check), a GET of `/` is handled identically to a GET
of `/index.html`, and both return status 200 with the file's bytes as body. -/
theorem C9_root_index (cfg : ServerCfg) (fs : FS)
    (hsafe : is_safe_path cfg (posixJoin cfg.www_dir "index.html") = true)
    (hnd : fs.isDir (posixJoin cfg.www_dir "index.html") = false)
    (hf : fs.isFile (posixJoin cfg.www_dir "index.html") = true) :
    handle_get_request cfg fs "/" = handle_get_request cfg fs "/index.html" ∧
    (handle_get_request cfg fs "/").status = 200 ∧
    (handle_get_request cfg fs "/").body =
      fs.content (posixJoin cfg.www_dir "index.html") := by
  have hcand : candidate_path cfg "/" = posixJoin cfg.www_dir "index.html" := rfl
  have hcand2 : candidate_path cfg "/index.html" =
      posixJoin cfg.www_dir "index.html" := rfl
  have hresEq : resolve_file_path cfg "/" = resolve_file_path cfg "/index.html" := by
    unfold resolve_file_path
    rw [hcand, hcand2]
  have heq : handle_get_request cfg fs "/" = handle_get_request cfg fs "/index.html" := by
    unfold handle_get_request
    rw [hresEq]
  have hres : resolve_file_path cfg "/" = some (posixJoin cfg.www_dir "index.html") := by
    unfold resolve_file_path
    rw [hcand, if_pos hsafe]
  have hserve : handle_get_request cfg fs "/" =
      serve_file fs (posixJoin cfg.www_dir "index.html") := by
    unfold handle_get_request
    rw [hres]
    simp [hnd, hf, fsExists]
  exact ⟨heq, by rw [hserve]; rfl, by rw [hserve]; rfl⟩

/-- C9 witness: with `/srv/www/index.html` present, `GET /` and
`GET /index.html` coincide and serve its bytes with status 200. -/
theorem C9_root_index_witness :
    handle_get_request wwwCfg fsIdx "/" = handle_get_request wwwCfg fsIdx "/index.html" ∧
    (handle_get_request wwwCfg fsIdx "/").status = 200 ∧
    (handle_get_request wwwCfg fsIdx "/").body =
      fsIdx.content (posixJoin wwwCfg.www_dir "index.html") :=
  C9_root_index wwwCfg fsIdx (by decide) (by decide) (by decide)

/-- C10: the claim is false as stated.  When the custom `404.html` under the
document root is readable but empty, `_get_error_content 404` returns that
empty string, not a nonempty HTML body. -/
theorem C10_counterexample :
    fs404Empty.readText (posixJoin wwwCfg.www_dir "404.html") = some "" ∧
    (get_error_content wwwCfg fs404Empty 404).length = 0 := by
  decide

set_option maxRecDepth 16384 in
/-- C10 (amended): `_get_error_content` is total over status codes — the
fixed table entry for 400, 403, 405, 500; for 404 the custom
`documentRoot/404.html` when readable, else a generated page; and for any
status outside the table a generic `<h1><code> Error</h1>` page — so no
error-page lookup can fail with a missing key; the body is nonempty in every
case except when the custom 404 page is readable but empty, in which case its
empty content is returned verbatim. -/
theorem C10_error_content_total (cfg : ServerCfg) (fs : FS) (status_code : Nat) :
    0 < (get_error_content cfg fs status_code).length ∨
    (status_code = 404 ∧
      fs.readText (posixJoin cfg.www_dir "404.html") = some "") := by
  unfold get_error_content
  by_cases h4 : status_code = 404
  · rw [if_pos h4]
    unfold get_404_page
    cases hrt : fs.readText (posixJoin cfg.www_dir "404.html") with
    | none => exact Or.inl (by decide)
    | some s =>
      by_cases hs : s = ""
      · exact Or.inr ⟨h4, by rw [hs]⟩
      · refine Or.inl ?_
        cases s with
        | mk l =>
          cases l with
          | nil => exact absurd rfl hs
          | cons a t => simp [String.length]
  · rw [if_neg h4]
    by_cases h3 : status_code = 403
    · rw [if_pos h3]; exact Or.inl (by decide)
    · rw [if_neg h3]
      by_cases h5 : status_code = 405
      · rw [if_pos h5]; exact Or.inl (by decide)
      · rw [if_neg h5]
        by_cases h0 : status_code = 500
        · rw [if_pos h0]; exact Or.inl (by decide)
        · rw [if_neg h0]
          by_cases hb : status_code = 400
          · rw [if_pos hb]; exact Or.inl (by decide)
          · rw [if_neg hb]
            refine Or.inl ?_
            have ha : ("<h1>" ++ toString status_code ++ " Error</h1>").length =
                ("<h1>" ++ toString status_code).length + " Error</h1>".length :=
              String.length_append _ _
            have hb2 : ("<h1>" ++ toString status_code).length =
                "<h1>".length + (toString status_code).length :=
              String.length_append _ _
            have hc : "<h1>".length = 4 := rfl
            omega
